import Mathlib

/-!
Verification of the WeAct 2.13" e-paper driver (SSD1680) and its LVGL 9
adapter.  The driver core (`weact_epaper_2in13.c`) owns a 4000-byte
framebuffer (16 bytes per row, 250 rows) and talks to the controller over a
transmit-only SPI channel; the adapter (`lvgl_weact_epaper.c`) reduces LVGL
RGB pixels to 1-bit monochrome and feeds them into the core.

The embedding below models the framebuffer as a byte-indexed function,
transport traffic as explicit event traces, and the allocation-dependent
control flow of the adapter factory as a function of an allocation
environment.
-/

-- ===========================================================================
-- Display geometry constants (weact_epaper_2in13.h)
-- ===========================================================================

def WEACT_EPAPER_WIDTH : Nat := 122
def WEACT_EPAPER_HEIGHT : Nat := 250
def WEACT_EPAPER_WIDTH_BYTES : Nat := 16
def WEACT_EPAPER_BUFFER_SIZE : Nat := WEACT_EPAPER_WIDTH_BYTES * WEACT_EPAPER_HEIGHT

-- Command bytes (weact_epaper_2in13.h)
def WEACT_EPAPER_CMD_MASTER_ACTIVATION : Nat := 0x20
def WEACT_EPAPER_CMD_DISPLAY_UPDATE_CONTROL_2 : Nat := 0x22
def WEACT_EPAPER_CMD_WRITE_RAM_BW : Nat := 0x24
def WEACT_EPAPER_CMD_WRITE_RAM_RED : Nat := 0x26
def WEACT_EPAPER_CMD_SET_RAM_X_ADDRESS_COUNTER : Nat := 0x4E
def WEACT_EPAPER_CMD_SET_RAM_Y_ADDRESS_COUNTER : Nat := 0x4F

-- ===========================================================================
-- Framebuffer model
-- ===========================================================================

/-- The framebuffer: a byte-indexed store (`dev->framebuffer`).  Only indices
below `WEACT_EPAPER_BUFFER_SIZE` (4000) are meaningful. -/
def Framebuffer : Type := Nat → Nat

/-- Embedding of `weact_epaper_draw_pixel` (weact_epaper_2in13.c:294-316).
Coordinates are C `int`s, hence `Int`; out-of-range coordinates are a no-op.
For color 0 the target bit is set (`|=`, WHITE); for any other color it is
cleared (`&= ~`, BLACK).  The `&&& 255` effect of storing into a `uint8_t`
is rendered by masking with `255 ^^^ (1 <<< k)`. -/
def weact_epaper_draw_pixel (fb : Framebuffer) (x y : Int) (color : Nat) : Framebuffer :=
  if x < 0 ∨ (WEACT_EPAPER_WIDTH : Int) ≤ x ∨ y < 0 ∨ (WEACT_EPAPER_HEIGHT : Int) ≤ y then
    fb
  else
    let byte_index : Nat := y.toNat * WEACT_EPAPER_WIDTH_BYTES + x.toNat / 8
    let bit_index : Nat := x.toNat % 8
    if color = 0 then
      fun i => if i = byte_index then fb byte_index ||| (1 <<< (7 - bit_index)) else fb i
    else
      fun i => if i = byte_index then fb byte_index &&& (255 ^^^ (1 <<< (7 - bit_index))) else fb i

/-- Reading a pixel bit back from the framebuffer:
`(framebuffer[y * 16 + x / 8] >> (7 - x % 8)) & 1`.
Bit value 1 = WHITE, 0 = BLACK. -/
def readPixelBit (fb : Framebuffer) (x y : Nat) : Nat :=
  (fb (y * WEACT_EPAPER_WIDTH_BYTES + x / 8) >>> (7 - x % 8)) &&& 1

-- ===========================================================================
-- Rectangle drawing (weact_epaper_2in13.c:318-356)
-- ===========================================================================

/-- A C `for (i = a; i will run n times; i++)` loop threading the
framebuffer through `body`. -/
def intFor (a : Int) (n : Nat) (body : Int → Framebuffer → Framebuffer)
    (fb : Framebuffer) : Framebuffer :=
  match n with
  | 0 => fb
  | Nat.succ m => intFor (a + 1) m body (body a fb)

/-- A C `for (i = a; i <= b; i++)` loop: `(b + 1 - a).toNat` iterations
starting at `a` (zero iterations when `b < a`). -/
def forRange (a b : Int) (body : Int → Framebuffer → Framebuffer)
    (fb : Framebuffer) : Framebuffer :=
  intFor a (b + 1 - a).toNat body fb

/-- Embedding of `weact_epaper_draw_rectangle` (weact_epaper_2in13.c:318-356).
Corners are first normalized by swapping (`if (x0 > x1)` etc.); the filled
branch draws every pixel of the box with color 1 (BLACK), the outline branch
draws the two horizontal edges in the x loop and the two vertical edges in
the y loop, all with color 1. -/
def weact_epaper_draw_rectangle (fb : Framebuffer) (x0 y0 x1 y1 : Int)
    (filled : Bool) : Framebuffer :=
  let xa := if x1 < x0 then x1 else x0
  let xb := if x1 < x0 then x0 else x1
  let ya := if y1 < y0 then y1 else y0
  let yb := if y1 < y0 then y0 else y1
  if filled then
    forRange ya yb
      (fun y fb2 => forRange xa xb (fun x fb3 => weact_epaper_draw_pixel fb3 x y 1) fb2) fb
  else
    forRange ya yb
      (fun y fb2 => weact_epaper_draw_pixel (weact_epaper_draw_pixel fb2 xa y 1) xb y 1)
      (forRange xa xb
        (fun x fb2 => weact_epaper_draw_pixel (weact_epaper_draw_pixel fb2 x ya 1) x yb 1) fb)

/-- The set of pixels on the border of the normalized rectangle
`[min x0 x1, max x0 x1] × [min y0 y1, max y0 y1]`. -/
def onPerimeter (x0 y0 x1 y1 : Int) (a b : Nat) : Prop :=
  (min x0 x1 ≤ (a : Int) ∧ (a : Int) ≤ max x0 x1 ∧
      ((b : Int) = min y0 y1 ∨ (b : Int) = max y0 y1)) ∨
  (((a : Int) = min x0 x1 ∨ (a : Int) = max x0 x1) ∧
      min y0 y1 ≤ (b : Int) ∧ (b : Int) ≤ max y0 y1)

instance (x0 y0 x1 y1 : Int) (a b : Nat) : Decidable (onPerimeter x0 y0 x1 y1 a b) := by
  unfold onPerimeter; exact inferInstance

-- ===========================================================================
-- Transport trace model (SPI command/data boundary)
-- ===========================================================================

/-- One observable transport event: a 1-byte command (`weact_epaper_send_command`),
an N-byte data payload (`weact_epaper_send_data`), or a blocking
`weact_epaper_wait_until_idle` call. -/
inductive SpiEv : Type
  | cmd (b : Nat)
  | data (bs : List Nat)
  | wait_idle
deriving DecidableEq

/-- The `memset(dev->framebuffer, 0xFF, WEACT_EPAPER_BUFFER_SIZE)` step. -/
def memset_ff (fb : Framebuffer) : Framebuffer :=
  fun i => if i < WEACT_EPAPER_BUFFER_SIZE then 0xFF else fb i

/-- The byte sequence transmitted when the whole framebuffer is sent as one
payload (`weact_epaper_send_data(dev, dev->framebuffer, WEACT_EPAPER_BUFFER_SIZE)`). -/
def fb_bytes (fb : Framebuffer) : List Nat :=
  (List.range WEACT_EPAPER_BUFFER_SIZE).map fb

/-- The X/Y RAM address-counter reset to (0, 0) that precedes each RAM write
in `weact_epaper_clear_screen`. -/
def xy_reset_events : List SpiEv :=
  [SpiEv.cmd WEACT_EPAPER_CMD_SET_RAM_X_ADDRESS_COUNTER, SpiEv.data [0x00],
   SpiEv.cmd WEACT_EPAPER_CMD_SET_RAM_Y_ADDRESS_COUNTER, SpiEv.data [0x00, 0x00]]

/-- Embedding of `weact_epaper_clear_screen` (weact_epaper_2in13.c:358-397):
memset the framebuffer to 0xFF, then emit the transport trace — X/Y counter
reset, full-buffer write to B/W RAM (0x24), X/Y counter reset again,
full-buffer write to RED RAM (0x26), display-update-control-2 with 0xF7,
master activation (0x20), and a blocking wait-until-idle. -/
def weact_epaper_clear_screen (fb : Framebuffer) : Framebuffer × List SpiEv :=
  let fb2 := memset_ff fb
  (fb2,
    xy_reset_events ++
    [SpiEv.cmd WEACT_EPAPER_CMD_WRITE_RAM_BW, SpiEv.data (fb_bytes fb2)] ++
    xy_reset_events ++
    [SpiEv.cmd WEACT_EPAPER_CMD_WRITE_RAM_RED, SpiEv.data (fb_bytes fb2)] ++
    [SpiEv.cmd WEACT_EPAPER_CMD_DISPLAY_UPDATE_CONTROL_2, SpiEv.data [0xF7],
     SpiEv.cmd WEACT_EPAPER_CMD_MASTER_ACTIVATION,
     SpiEv.wait_idle])

/-- A full-buffer (4000-byte) RAM payload. -/
def is_full_ram_write : SpiEv → Bool
  | SpiEv.data bs => bs.length = WEACT_EPAPER_BUFFER_SIZE
  | _ => false

/-- A master-activation command byte. -/
def is_master_activation : SpiEv → Bool
  | SpiEv.cmd b => b = WEACT_EPAPER_CMD_MASTER_ACTIVATION
  | _ => false

-- ===========================================================================
-- Busy-wait model (weact_epaper_2in13.c:96-126)
-- ===========================================================================

/-- `const uint32_t MAX_TIMEOUT_MS = 5000;` — the comment in the source calls
this a "5 second timeout". -/
def MAX_TIMEOUT_MS : Nat := 5000

/-- Milliseconds slept per poll iteration: `vTaskDelay(pdMS_TO_TICKS(100))`. -/
def POLL_DELAY_MS : Nat := 100

/-- The `while (gpio_get_level(pin_busy) == 1)` loop of
`weact_epaper_wait_until_idle`.  `busy k` is the level read at the k-th poll
(`true` = HIGH = busy).  Each busy poll sleeps 100 ms and then adds 10 to the
`timeout` counter, breaking once the counter exceeds `MAX_TIMEOUT_MS`.
Returns (final counter value, number of 100 ms delays performed, timed-out flag). -/
def wait_poll_loop (busy : Nat → Bool) (k timeout : Nat) : Nat × Nat × Bool :=
  if busy k = false then (timeout, k, false)
  else if MAX_TIMEOUT_MS < timeout + 10 then (timeout + 10, k + 1, true)
  else wait_poll_loop busy (k + 1) (timeout + 10)
termination_by MAX_TIMEOUT_MS - timeout
decreasing_by omega

/-- Embedding of `weact_epaper_wait_until_idle`. -/
def weact_epaper_wait_until_idle (busy : Nat → Bool) : Nat × Nat × Bool :=
  wait_poll_loop busy 0 0

-- ===========================================================================
-- LVGL adapter: color reduction and flush (lvgl_weact_epaper.c)
-- ===========================================================================

/-- Embedding of `rgb_to_mono`: perceptual luma `(r*30 + g*59 + b*11) / 100`
thresholded at 128.  Returns 0 below the threshold and 1 at or above it
(the function documents these as "0 for black, 1 for white"). -/
def rgb_to_mono (r g b : Nat) : Nat :=
  let brightness := (r * 30 + g * 59 + b * 11) / 100
  if brightness < 128 then 0 else 1

/-- The LVGL color formats distinguished by `lvgl_flush_cb`. -/
inductive lv_color_format : Type
  | rgb565
  | rgb888
  | xrgb8888
  | argb8888
  | other
deriving DecidableEq

/-- Decoding of the (r, g, b) components of pixel `i` from the raw byte
buffer `px_map`, as in `lvgl_flush_cb`: RGB565 reads a little-endian 16-bit
word and rescales each field to 0..255, RGB888 reads three bytes, the 32-bit
formats skip the leading A/X byte, and any other format reuses one byte for
all three channels (grayscale fallback). -/
def decode_color (cf : lv_color_format) (px_map : Nat → Nat) (i : Nat) :
    Nat × Nat × Nat :=
  match cf with
  | .rgb565 =>
      let v := px_map (2 * i) + 256 * px_map (2 * i + 1)
      (((v >>> 11) &&& 0x1F) * 255 / 31,
       ((v >>> 5) &&& 0x3F) * 255 / 63,
       (v &&& 0x1F) * 255 / 31)
  | .rgb888 => (px_map (3 * i), px_map (3 * i + 1), px_map (3 * i + 2))
  | .xrgb8888 => (px_map (4 * i + 1), px_map (4 * i + 2), px_map (4 * i + 3))
  | .argb8888 => (px_map (4 * i + 1), px_map (4 * i + 2), px_map (4 * i + 3))
  | .other => (px_map i, px_map i, px_map i)

/-- The landscape (90° rotated) coordinate transform of `lvgl_flush_cb`:
`(hw_x, hw_y) = (y, (WEACT_EPAPER_HEIGHT - 1) - x)`. -/
def landscape_transform (p : Int × Int) : Int × Int :=
  (p.2, ((WEACT_EPAPER_HEIGHT : Int) - 1) - p.1)

/-- The inverse of `landscape_transform`. -/
def landscape_transform_inv (q : Int × Int) : Int × Int :=
  (((WEACT_EPAPER_HEIGHT : Int) - 1) - q.2, q.1)

/-- Hardware coordinates for the source pixel at loop offsets (x, y) inside
the dirty area starting at (x1, y1): the landscape transform when the
landscape flag is set, the identity mapping otherwise. -/
def flush_hw_coord (landscape : Bool) (x1 y1 : Int) (x y : Nat) : Int × Int :=
  if landscape then landscape_transform (x1 + x, y1 + y)
  else (x1 + x, y1 + y)

/-- One observable step of `lvgl_flush_cb`: a `weact_epaper_draw_pixel` call,
the `lv_display_flush_ready` notification, or the blocking
`weact_epaper_display_frame` call. -/
inductive FlushEv : Type
  | draw (hw_x hw_y : Int) (color : Nat)
  | flush_ready
  | display_frame
deriving DecidableEq

/-- The draw event emitted for loop offsets (x, y): the pixel at index
`px_index = y * w + x` is decoded, reduced with `rgb_to_mono`, and drawn at
the transformed hardware coordinates. -/
def flush_draw_ev (landscape : Bool) (cf : lv_color_format) (x1 y1 : Int)
    (w : Nat) (px_map : Nat → Nat) (x y : Nat) : FlushEv :=
  let rgb := decode_color cf px_map (y * w + x)
  let hw := flush_hw_coord landscape x1 y1 x y
  FlushEv.draw hw.1 hw.2 (rgb_to_mono rgb.1 rgb.2.1 rgb.2.2)

/-- The draw events of the row-major double loop of `lvgl_flush_cb` over the
dirty area `[x1, x2] × [y1, y2]` (width `x2 - x1 + 1`, height `y2 - y1 + 1`,
as `lv_area_get_width`/`lv_area_get_height` compute them). -/
def flush_pixel_events (landscape : Bool) (cf : lv_color_format)
    (x1 y1 x2 y2 : Int) (px_map : Nat → Nat) : List FlushEv :=
  let w := (x2 - x1 + 1).toNat
  let h := (y2 - y1 + 1).toNat
  (List.range h).flatMap
    (fun y => (List.range w).map (fun x => flush_draw_ev landscape cf x1 y1 w px_map x y))

/-- Embedding of `lvgl_flush_cb` (lvgl_weact_epaper.c) as its event trace:
all per-pixel draws, then the `lv_display_flush_ready` notification, then
the blocking `weact_epaper_display_frame` call. -/
def lvgl_flush_cb (landscape : Bool) (cf : lv_color_format)
    (x1 y1 x2 y2 : Int) (px_map : Nat → Nat) : List FlushEv :=
  flush_pixel_events landscape cf x1 y1 x2 y2 px_map ++
    [FlushEv.flush_ready, FlushEv.display_frame]

/-- Effect of one flush event on the core framebuffer. -/
def apply_flush_ev (fb : Framebuffer) : FlushEv → Framebuffer
  | FlushEv.draw hx hy c => weact_epaper_draw_pixel fb hx hy c
  | _ => fb

/-- Replay of a flush event trace on the core framebuffer. -/
def flush_apply (fb : Framebuffer) (evs : List FlushEv) : Framebuffer :=
  evs.foldl apply_flush_ev fb

-- ===========================================================================
-- LVGL adapter: display creation (lvgl_weact_epaper.c, lvgl_weact_epaper_create)
-- ===========================================================================

/-- Outcome environment for the fallible steps of `lvgl_weact_epaper_create`:
whether the config pointer is NULL, whether the `heap_caps_malloc` of the
core framebuffer inside `weact_epaper_init` succeeds, whether
`lv_display_create` succeeds, and whether each of the two LVGL draw-buffer
allocations succeeds. -/
structure lvgl_weact_epaper_env : Type where
  config_null : Bool
  fb_alloc_ok : Bool
  disp_create_ok : Bool
  buf1_ok : Bool
  buf2_ok : Bool
deriving DecidableEq

/-- The LVGL display handle returned on success, recording the orientation
and whether double buffering is active (draw buffer 2 allocated). -/
structure lv_display_handle : Type where
  landscape : Bool
  double_buffered : Bool
deriving DecidableEq

/-- Embedding of the control flow of `lvgl_weact_epaper_create`: NULL config,
a false return from `weact_epaper_init` (framebuffer allocation failure),
a NULL `lv_display_create` result, or a failed draw-buffer-1 allocation each
return NULL; a failed draw-buffer-2 allocation only logs a warning and falls
back to single buffering, still returning the display handle. -/
def lvgl_weact_epaper_create (landscape : Bool) (env : lvgl_weact_epaper_env) :
    Option lv_display_handle :=
  if env.config_null then none
  else if env.fb_alloc_ok = false then none
  else if env.disp_create_ok = false then none
  else if env.buf1_ok = false then none
  else some { landscape := landscape, double_buffered := env.buf2_ok }

-- ===========================================================================
-- Theorems: bit-level helpers
-- ===========================================================================

theorem shiftRight_and_one (w k : Nat) :
    (w >>> k) &&& 1 = if w.testBit k then 1 else 0 := by
  rw [Nat.and_one_is_mod, Nat.shiftRight_eq_div_pow, Nat.testBit_to_div_mod]
  rcases Nat.mod_two_eq_zero_or_one (w / 2 ^ k) with h | h <;> simp [h]

theorem or_bit_self (w k : Nat) : ((w ||| (1 <<< k)) >>> k) &&& 1 = 1 := by
  rw [shiftRight_and_one]
  simp [Nat.testBit_or, Nat.one_shiftLeft, Nat.testBit_two_pow_self]

theorem or_bit_other (w k j : Nat) (h : j ≠ k) :
    ((w ||| (1 <<< k)) >>> j) &&& 1 = (w >>> j) &&& 1 := by
  rw [shiftRight_and_one, shiftRight_and_one]
  simp [Nat.testBit_or, Nat.one_shiftLeft, Nat.testBit_two_pow_of_ne (Ne.symm h)]

theorem testBit_255 (j : Nat) (hj : j < 8) : (255 : Nat).testBit j = true := by
  have h255 : (255 : Nat) = 2 ^ 8 - 1 := by norm_num
  rw [h255, Nat.testBit_two_pow_sub_one]
  simp [hj]

theorem and_mask_self (w k : Nat) (hk : k < 8) :
    ((w &&& (255 ^^^ (1 <<< k))) >>> k) &&& 1 = 0 := by
  rw [shiftRight_and_one]
  have hm : (255 ^^^ (1 <<< k)).testBit k = false := by
    rw [Nat.testBit_xor, Nat.one_shiftLeft, Nat.testBit_two_pow_self,
      testBit_255 k hk]
    rfl
  simp [Nat.testBit_and, hm]

theorem and_mask_other (w k j : Nat) (h : j ≠ k) (hj : j < 8) :
    ((w &&& (255 ^^^ (1 <<< k))) >>> j) &&& 1 = (w >>> j) &&& 1 := by
  rw [shiftRight_and_one, shiftRight_and_one]
  have hm : (255 ^^^ (1 <<< k)).testBit j = true := by
    rw [Nat.testBit_xor, Nat.one_shiftLeft, Nat.testBit_two_pow_of_ne (Ne.symm h),
      testBit_255 j hj]
    rfl
  simp [Nat.testBit_and, hm]

theorem readPixelBit_draw_pixel (fb : Framebuffer) (x y : Int) (c : Nat)
    (hx0 : 0 ≤ x) (hx1 : x < 122) (hy0 : 0 ≤ y) (hy1 : y < 250)
    (a b : Nat) (ha : a < 122) (hb : b < 250) :
    readPixelBit (weact_epaper_draw_pixel fb x y c) a b =
      if (a : Int) = x ∧ (b : Int) = y then (if c = 0 then 1 else 0)
      else readPixelBit fb a b := by
  have hbound : ¬(x < 0 ∨ (WEACT_EPAPER_WIDTH : Int) ≤ x ∨ y < 0 ∨
      (WEACT_EPAPER_HEIGHT : Int) ≤ y) := by
    simp only [WEACT_EPAPER_WIDTH, WEACT_EPAPER_HEIGHT]
    push_cast
    omega
  simp only [weact_epaper_draw_pixel, if_neg hbound, readPixelBit,
    WEACT_EPAPER_WIDTH_BYTES]
  by_cases hc : c = 0 <;> simp only [hc, if_true, if_false, reduceCtorEq]
  · -- color 0: bit is set (WHITE)
    by_cases hab : (a : Int) = x ∧ (b : Int) = y
    · have hax : a = x.toNat := by omega
      have hby : b = y.toNat := by omega
      subst hax; subst hby
      rw [if_pos hab, if_pos rfl]
      exact or_bit_self _ _
    · rw [if_neg hab]
      by_cases heq : b * 16 + a / 8 = y.toNat * 16 + x.toNat / 8
      · have hby : b = y.toNat := by omega
        have hdd : a / 8 = x.toNat / 8 := by omega
        have hax : a ≠ x.toNat := by omega
        have hsh : 7 - a % 8 ≠ 7 - x.toNat % 8 := by omega
        rw [if_pos heq, heq, or_bit_other _ _ _ hsh]
      · rw [if_neg heq]
  · -- nonzero color: bit is cleared (BLACK)
    by_cases hab : (a : Int) = x ∧ (b : Int) = y
    · have hax : a = x.toNat := by omega
      have hby : b = y.toNat := by omega
      subst hax; subst hby
      rw [if_pos hab, if_pos rfl]
      exact and_mask_self _ _ (by omega)
    · rw [if_neg hab]
      by_cases heq : b * 16 + a / 8 = y.toNat * 16 + x.toNat / 8
      · have hby : b = y.toNat := by omega
        have hdd : a / 8 = x.toNat / 8 := by omega
        have hax : a ≠ x.toNat := by omega
        have hsh : 7 - a % 8 ≠ 7 - x.toNat % 8 := by omega
        rw [if_pos heq, heq, and_mask_other _ _ _ hsh (by omega)]
      · rw [if_neg heq]

theorem weact_epaper_draw_pixel_oob (fb : Framebuffer) (x y : Int) (color : Nat)
    (h : x < 0 ∨ (WEACT_EPAPER_WIDTH : Int) ≤ x ∨ y < 0 ∨ (WEACT_EPAPER_HEIGHT : Int) ≤ y) :
    weact_epaper_draw_pixel fb x y color = fb := by
  simp only [weact_epaper_draw_pixel, if_pos h]

theorem readPixelBit_intFor_x (ya yb : Int)
    (hya0 : 0 ≤ ya) (hya1 : ya < 250) (hyb0 : 0 ≤ yb) (hyb1 : yb < 250) :
    ∀ (n : Nat) (s : Int) (fb : Framebuffer), 0 ≤ s → s + n ≤ 122 →
    ∀ (a b : Nat), a < 122 → b < 250 →
    readPixelBit
      (intFor s n
        (fun x fb2 => weact_epaper_draw_pixel (weact_epaper_draw_pixel fb2 x ya 1) x yb 1)
        fb) a b =
      if s ≤ (a : Int) ∧ (a : Int) < s + n ∧ ((b : Int) = ya ∨ (b : Int) = yb) then 0
      else readPixelBit fb a b := by
  intro n
  induction n with
  | zero =>
    intro s fb hs0 hs1 a b ha hb
    simp only [intFor]
    rw [if_neg (by omega)]
  | succ m ih =>
    intro s fb hs0 hs1 a b ha hb
    simp only [intFor]
    rw [ih (s + 1) _ (by omega) (by omega) a b ha hb]
    rw [readPixelBit_draw_pixel _ s yb 1 (by omega) (by omega) hyb0 hyb1 a b ha hb]
    rw [readPixelBit_draw_pixel _ s ya 1 (by omega) (by omega) hya0 hya1 a b ha hb]
    simp only [Nat.one_ne_zero, if_false]
    split_ifs <;> first | rfl | omega

theorem readPixelBit_intFor_y (xa xb : Int)
    (hxa0 : 0 ≤ xa) (hxa1 : xa < 122) (hxb0 : 0 ≤ xb) (hxb1 : xb < 122) :
    ∀ (n : Nat) (s : Int) (fb : Framebuffer), 0 ≤ s → s + n ≤ 250 →
    ∀ (a b : Nat), a < 122 → b < 250 →
    readPixelBit
      (intFor s n
        (fun y fb2 => weact_epaper_draw_pixel (weact_epaper_draw_pixel fb2 xa y 1) xb y 1)
        fb) a b =
      if ((a : Int) = xa ∨ (a : Int) = xb) ∧ s ≤ (b : Int) ∧ (b : Int) < s + n then 0
      else readPixelBit fb a b := by
  intro n
  induction n with
  | zero =>
    intro s fb hs0 hs1 a b ha hb
    simp only [intFor]
    rw [if_neg (by omega)]
  | succ m ih =>
    intro s fb hs0 hs1 a b ha hb
    simp only [intFor]
    rw [ih (s + 1) _ (by omega) (by omega) a b ha hb]
    rw [readPixelBit_draw_pixel _ xb s 1 hxb0 hxb1 (by omega) (by omega) a b ha hb]
    rw [readPixelBit_draw_pixel _ xa s 1 hxa0 hxa1 (by omega) (by omega) a b ha hb]
    simp only [Nat.one_ne_zero, if_false]
    split_ifs <;> first | rfl | omega

theorem readPixelBit_draw_rectangle_outline (fb : Framebuffer) (x0 y0 x1 y1 : Int)
    (hx0 : 0 ≤ min x0 x1) (hx1 : max x0 x1 < 122)
    (hy0 : 0 ≤ min y0 y1) (hy1 : max y0 y1 < 250)
    (a b : Nat) (ha : a < 122) (hb : b < 250) :
    readPixelBit (weact_epaper_draw_rectangle fb x0 y0 x1 y1 false) a b =
      if onPerimeter x0 y0 x1 y1 a b then 0 else readPixelBit fb a b := by
  have e1 : (if x1 < x0 then x1 else x0) = min x0 x1 := by split <;> omega
  have e2 : (if x1 < x0 then x0 else x1) = max x0 x1 := by split <;> omega
  have e3 : (if y1 < y0 then y1 else y0) = min y0 y1 := by split <;> omega
  have e4 : (if y1 < y0 then y0 else y1) = max y0 y1 := by split <;> omega
  simp only [weact_epaper_draw_rectangle, e1, e2, e3, e4, Bool.false_eq_true,
    if_false, forRange]
  rw [readPixelBit_intFor_y (min x0 x1) (max x0 x1) hx0 (by omega) (by omega) hx1
    ((max y0 y1 + 1 - min y0 y1).toNat) (min y0 y1) _ hy0 (by omega) a b ha hb]
  rw [readPixelBit_intFor_x (min y0 y1) (max y0 y1) hy0 (by omega) (by omega) hy1
    ((max x0 x1 + 1 - min x0 x1).toNat) (min x0 x1) _ hx0 (by omega) a b ha hb]
  simp only [onPerimeter]
  split_ifs <;> first | rfl | omega

theorem draw_pixel_apply (fb : Framebuffer) (x y : Int) (c : Nat)
    (hx0 : 0 ≤ x) (hx1 : x < 122) (hy0 : 0 ≤ y) (hy1 : y < 250) (i : Nat) :
    weact_epaper_draw_pixel fb x y c i =
      if i = y.toNat * WEACT_EPAPER_WIDTH_BYTES + x.toNat / 8 then
        (if c = 0 then fb i ||| (1 <<< (7 - x.toNat % 8))
         else fb i &&& (255 ^^^ (1 <<< (7 - x.toNat % 8))))
      else fb i := by
  have hbound : ¬(x < 0 ∨ (WEACT_EPAPER_WIDTH : Int) ≤ x ∨ y < 0 ∨
      (WEACT_EPAPER_HEIGHT : Int) ≤ y) := by
    simp only [WEACT_EPAPER_WIDTH, WEACT_EPAPER_HEIGHT]
    push_cast
    omega
  simp only [weact_epaper_draw_pixel, if_neg hbound]
  by_cases hc : c = 0 <;> simp only [hc, if_true, if_false, reduceCtorEq] <;>
    by_cases hi : i = y.toNat * WEACT_EPAPER_WIDTH_BYTES + x.toNat / 8 <;>
    simp [hi]

/-- C4: for every in-bounds coordinate (x, y), `weact_epaper_draw_pixel` stores the
pixel at byte index `y * 16 + x / 8` and bit position `7 - (x % 8)` — every other
byte, and every other bit of that byte, is unchanged — with bit value 1 = WHITE
(color argument 0) and bit value 0 = BLACK (color argument 1); drawing BLACK and
reading the bit back yields BLACK (0), drawing WHITE and reading back yields
WHITE (1). -/
theorem draw_pixel_addressing_roundtrip (fb : Framebuffer) (x y : Nat)
    (hx : x < 122) (hy : y < 250) :
    (∀ c i, i ≠ y * WEACT_EPAPER_WIDTH_BYTES + x / 8 →
       weact_epaper_draw_pixel fb x y c i = fb i) ∧
    (∀ c j, j < 8 → j ≠ 7 - x % 8 →
       ((weact_epaper_draw_pixel fb x y c) (y * WEACT_EPAPER_WIDTH_BYTES + x / 8) >>> j) &&& 1 =
         (fb (y * WEACT_EPAPER_WIDTH_BYTES + x / 8) >>> j) &&& 1) ∧
    ((weact_epaper_draw_pixel fb x y 1) (y * WEACT_EPAPER_WIDTH_BYTES + x / 8) >>> (7 - x % 8)) &&& 1 = 0 ∧
    ((weact_epaper_draw_pixel fb x y 0) (y * WEACT_EPAPER_WIDTH_BYTES + x / 8) >>> (7 - x % 8)) &&& 1 = 1 ∧
    readPixelBit (weact_epaper_draw_pixel fb x y 1) x y = 0 ∧
    readPixelBit (weact_epaper_draw_pixel fb x y 0) x y = 1 := by
  have hxx : ((x : Int)).toNat = x := Int.toNat_natCast x
  have hyy : ((y : Int)).toNat = y := Int.toNat_natCast y
  have happ : ∀ c i, weact_epaper_draw_pixel fb x y c i =
      if i = y * WEACT_EPAPER_WIDTH_BYTES + x / 8 then
        (if c = 0 then fb i ||| (1 <<< (7 - x % 8))
         else fb i &&& (255 ^^^ (1 <<< (7 - x % 8))))
      else fb i := by
    intro c i
    rw [draw_pixel_apply fb x y c (by omega) (by omega) (by omega) (by omega) i,
      hxx, hyy]
  refine ⟨?_, ?_, ?_, ?_, ?_, ?_⟩
  · intro c i hi
    rw [happ c i, if_neg hi]
  · intro c j hj8 hj
    rw [happ c _, if_pos rfl]
    by_cases hc : c = 0 <;> simp only [hc, if_true, if_false, reduceCtorEq]
    · exact or_bit_other _ _ _ hj
    · exact and_mask_other _ _ _ hj hj8
  · rw [happ 1 _, if_pos rfl, if_neg (by omega)]
    exact and_mask_self _ _ (by omega)
  · rw [happ 0 _, if_pos rfl, if_pos rfl]
    exact or_bit_self _ _
  · simp only [readPixelBit]
    rw [happ 1 _, if_pos rfl, if_neg (by omega)]
    exact and_mask_self _ _ (by omega)
  · simp only [readPixelBit]
    rw [happ 0 _, if_pos rfl, if_pos rfl]
    exact or_bit_self _ _

theorem draw_pixel_addressing_roundtrip_witness :
    readPixelBit (weact_epaper_draw_pixel (fun _ => 0) 5 7 1) 5 7 = 0 ∧
    readPixelBit (weact_epaper_draw_pixel (fun _ => 0) 5 7 0) 5 7 = 1 := by
  have h := draw_pixel_addressing_roundtrip (fun _ => 0) 5 7 (by decide) (by decide)
  exact ⟨h.2.2.2.2.1, h.2.2.2.2.2⟩

/-- C5: for every coordinate outside [0,122) × [0,250) and every color value,
`weact_epaper_draw_pixel` is a silent no-op: the framebuffer (in particular
each of its 4000 bytes) is unchanged, and no error is reported (the function
simply returns). -/
theorem draw_pixel_out_of_bounds_noop (fb : Framebuffer) (x y : Int) (color : Nat)
    (h : x < 0 ∨ (122 : Int) ≤ x ∨ y < 0 ∨ (250 : Int) ≤ y) :
    weact_epaper_draw_pixel fb x y color = fb ∧
    ∀ i, i < 4000 → weact_epaper_draw_pixel fb x y color i = fb i := by
  have h2 : x < 0 ∨ (WEACT_EPAPER_WIDTH : Int) ≤ x ∨ y < 0 ∨
      (WEACT_EPAPER_HEIGHT : Int) ≤ y := by
    simp only [WEACT_EPAPER_WIDTH, WEACT_EPAPER_HEIGHT]
    push_cast
    omega
  refine ⟨weact_epaper_draw_pixel_oob fb x y color h2, ?_⟩
  intro i _
  rw [weact_epaper_draw_pixel_oob fb x y color h2]

theorem draw_pixel_out_of_bounds_noop_witness :
    weact_epaper_draw_pixel (fun _ => 0) (-1) 0 5 = (fun _ => 0) :=
  (draw_pixel_out_of_bounds_noop (fun _ => 0) (-1) 0 5 (by decide)).1

/-- C10: for every in-bounds coordinate, `weact_epaper_draw_pixel` treats every
nonzero color argument as BLACK — it produces exactly the framebuffer produced
by color 1, clearing the target bit — and sets the bit (WHITE) only for
color 0. -/
theorem draw_pixel_nonzero_is_black (fb : Framebuffer) (x y : Nat)
    (hx : x < 122) (hy : y < 250) (c : Nat) (hc : c ≠ 0) :
    weact_epaper_draw_pixel fb x y c = weact_epaper_draw_pixel fb x y 1 ∧
    readPixelBit (weact_epaper_draw_pixel fb x y c) x y = 0 ∧
    readPixelBit (weact_epaper_draw_pixel fb x y 0) x y = 1 := by
  refine ⟨?_, ?_, ?_⟩
  · simp only [weact_epaper_draw_pixel, hc, Nat.one_ne_zero, if_false]
  · rw [readPixelBit_draw_pixel fb x y c (by omega) (by omega) (by omega) (by omega)
      x y hx hy]
    simp [hc]
  · rw [readPixelBit_draw_pixel fb x y 0 (by omega) (by omega) (by omega) (by omega)
      x y hx hy]
    simp

theorem draw_pixel_nonzero_is_black_witness :
    weact_epaper_draw_pixel (fun _ => 0) 5 7 200 = weact_epaper_draw_pixel (fun _ => 0) 5 7 1 :=
  (draw_pixel_nonzero_is_black (fun _ => 0) 5 7 (by decide) (by decide) 200 (by decide)).1

/-- C7: for every rectangle whose normalized corners lie within the panel
bounds, the outline (non-filled) `weact_epaper_draw_rectangle` sets exactly
the perimeter pixels of the normalized rectangle to BLACK (bit 0), leaves
every strictly-interior pixel and every pixel outside the rectangle at its
prior value, and never writes WHITE (each pixel is either forced to 0 or
keeps its prior bit). -/
theorem draw_rectangle_outline_spec (fb : Framebuffer) (x0 y0 x1 y1 : Int)
    (hx0 : 0 ≤ min x0 x1) (hx1 : max x0 x1 < 122)
    (hy0 : 0 ≤ min y0 y1) (hy1 : max y0 y1 < 250)
    (a b : Nat) (ha : a < 122) (hb : b < 250) :
    (readPixelBit (weact_epaper_draw_rectangle fb x0 y0 x1 y1 false) a b =
       if onPerimeter x0 y0 x1 y1 a b then 0 else readPixelBit fb a b) ∧
    (readPixelBit (weact_epaper_draw_rectangle fb x0 y0 x1 y1 false) a b = 0 ∨
       readPixelBit (weact_epaper_draw_rectangle fb x0 y0 x1 y1 false) a b =
         readPixelBit fb a b) := by
  have h := readPixelBit_draw_rectangle_outline fb x0 y0 x1 y1 hx0 hx1 hy0 hy1 a b ha hb
  refine ⟨h, ?_⟩
  rw [h]
  by_cases hp : onPerimeter x0 y0 x1 y1 a b
  · exact Or.inl (by rw [if_pos hp])
  · exact Or.inr (by rw [if_neg hp])

theorem draw_rectangle_outline_spec_witness :
    readPixelBit (weact_epaper_draw_rectangle (fun _ => 255) 1 1 3 3 false) 1 2 = 0 ∧
    readPixelBit (weact_epaper_draw_rectangle (fun _ => 255) 1 1 3 3 false) 2 2 = 1 := by
  constructor
  · have h := (draw_rectangle_outline_spec (fun _ => 255) 1 1 3 3
      (by decide) (by decide) (by decide) (by decide) 1 2 (by decide) (by decide)).1
    rw [h, if_pos (by decide)]
  · have h := (draw_rectangle_outline_spec (fun _ => 255) 1 1 3 3
      (by decide) (by decide) (by decide) (by decide) 2 2 (by decide) (by decide)).1
    rw [h, if_neg (by decide)]
    decide

/-- C8: the landscape orientation transform (x, y) ↦ (y, (250 - 1) - x) is a
bijection from the 250×122 logical pixel grid onto the 122×250 hardware
grid: it maps into the hardware grid, composing with its inverse recovers
the original coordinate in both directions (so every hardware coordinate is
hit exactly once), and it is injective. -/
theorem landscape_transform_bijective :
    (∀ p : Int × Int, 0 ≤ p.1 → p.1 < 250 → 0 ≤ p.2 → p.2 < 122 →
       0 ≤ (landscape_transform p).1 ∧ (landscape_transform p).1 < 122 ∧
       0 ≤ (landscape_transform p).2 ∧ (landscape_transform p).2 < 250 ∧
       landscape_transform_inv (landscape_transform p) = p) ∧
    (∀ q : Int × Int, 0 ≤ q.1 → q.1 < 122 → 0 ≤ q.2 → q.2 < 250 →
       0 ≤ (landscape_transform_inv q).1 ∧ (landscape_transform_inv q).1 < 250 ∧
       0 ≤ (landscape_transform_inv q).2 ∧ (landscape_transform_inv q).2 < 122 ∧
       landscape_transform (landscape_transform_inv q) = q) ∧
    (∀ p q : Int × Int, landscape_transform p = landscape_transform q → p = q) := by
  refine ⟨?_, ?_, ?_⟩
  · rintro ⟨px, py⟩ h1 h2 h3 h4
    simp [landscape_transform, landscape_transform_inv, WEACT_EPAPER_HEIGHT,
      Prod.mk.injEq]
    omega
  · rintro ⟨qx, qy⟩ h1 h2 h3 h4
    simp [landscape_transform, landscape_transform_inv, WEACT_EPAPER_HEIGHT,
      Prod.mk.injEq]
    omega
  · rintro ⟨px, py⟩ ⟨qx, qy⟩ h
    simp [landscape_transform, WEACT_EPAPER_HEIGHT, Prod.mk.injEq] at h ⊢
    omega

theorem landscape_transform_bijective_witness :
    landscape_transform_inv (landscape_transform (3, 5)) = (3, 5) :=
  (landscape_transform_bijective.1 (3, 5)
    (by decide) (by decide) (by decide) (by decide)).2.2.2.2

/-- C2 counterexample: when only the second LVGL draw-buffer allocation fails
(config non-NULL, framebuffer allocation succeeds, display creation succeeds,
draw buffer 1 succeeds), `lvgl_weact_epaper_create` does NOT return a
null/failure indicator — it returns a valid display handle with double
buffering disabled, refuting the claim that failure of either of the two
draw buffers yields a null return. -/
theorem lvgl_weact_epaper_create_buf2_failure_not_null :
    lvgl_weact_epaper_create false
      { config_null := false, fb_alloc_ok := true, disp_create_ok := true,
        buf1_ok := true, buf2_ok := false } =
      some { landscape := false, double_buffered := false } ∧
    lvgl_weact_epaper_create false
      { config_null := false, fb_alloc_ok := true, disp_create_ok := true,
        buf1_ok := true, buf2_ok := false } ≠ none := by
  decide

/-- C2 (amended): `lvgl_weact_epaper_create` returns none exactly when the
config is NULL, the low-level framebuffer allocation fails, the LVGL display
creation fails, or the FIRST draw-buffer allocation fails; when those all
succeed it returns a display handle even if the second draw-buffer
allocation fails, merely falling back to single buffering. -/
theorem lvgl_weact_epaper_create_none_iff (landscape : Bool)
    (env : lvgl_weact_epaper_env) :
    (lvgl_weact_epaper_create landscape env = none ↔
      env.config_null = true ∨ env.fb_alloc_ok = false ∨
        env.disp_create_ok = false ∨ env.buf1_ok = false) ∧
    (env.config_null = false → env.fb_alloc_ok = true → env.disp_create_ok = true →
      env.buf1_ok = true →
      lvgl_weact_epaper_create landscape env =
        some { landscape := landscape, double_buffered := env.buf2_ok }) := by
  obtain ⟨c, f, d, b1, b2⟩ := env
  cases landscape <;> cases c <;> cases f <;> cases d <;> cases b1 <;> cases b2 <;>
    decide

theorem lvgl_weact_epaper_create_none_iff_witness :
    lvgl_weact_epaper_create false
      { config_null := false, fb_alloc_ok := false, disp_create_ok := true,
        buf1_ok := true, buf2_ok := true } = none :=
  (lvgl_weact_epaper_create_none_iff false
    { config_null := false, fb_alloc_ok := false, disp_create_ok := true,
      buf1_ok := true, buf2_ok := true }).1.mpr (by decide)

theorem wait_poll_loop_busy_forever :
    ∀ m : Nat, m ≤ 500 → ∀ k : Nat,
      wait_poll_loop (fun _ => true) k (5000 - 10 * m) = (5010, k + m + 1, true) := by
  intro m
  induction m with
  | zero =>
    intro _ k
    rw [wait_poll_loop]
    norm_num [MAX_TIMEOUT_MS]
  | succ p ih =>
    intro hm k
    rw [wait_poll_loop]
    have h1 : 5000 - 10 * (p + 1) + 10 = 5000 - 10 * p := by omega
    have h2 : ¬(MAX_TIMEOUT_MS < 5000 - 10 * (p + 1) + 10) := by
      simp only [MAX_TIMEOUT_MS]
      omega
    rw [if_neg (by simp), if_neg h2, h1, ih (by omega) (k + 1)]
    have h3 : k + 1 + p + 1 = k + (p + 1) + 1 := by omega
    rw [h3]

/-- C6 (code-bug evidence): with the busy-sense input stuck high,
`weact_epaper_wait_until_idle` does terminate with the timed-out flag, but
only after 501 poll iterations; since every iteration sleeps
`POLL_DELAY_MS` = 100 ms while adding only 10 to the timeout counter, the
real blocked time is 501 × 100 ms = 50100 ms ≈ 50 s — an order of magnitude
beyond the `MAX_TIMEOUT_MS` = 5000 ms bound that the source comment calls a
"5 second timeout" and the spec calls "on the order of a few seconds". -/
theorem wait_until_idle_stuck_busy_eval :
    weact_epaper_wait_until_idle (fun _ => true) = (5010, 501, true) ∧
    POLL_DELAY_MS * (weact_epaper_wait_until_idle (fun _ => true)).2.1 = 50100 ∧
    MAX_TIMEOUT_MS = 5000 := by
  have h := wait_poll_loop_busy_forever 500 (by omega) 0
  have h0 : (5000 : Nat) - 10 * 500 = 0 := by norm_num
  rw [h0] at h
  have heval : weact_epaper_wait_until_idle (fun _ => true) = (5010, 501, true) := by
    unfold weact_epaper_wait_until_idle
    rw [h]
  refine ⟨heval, ?_, rfl⟩
  rw [heval]
  decide

theorem fb_bytes_memset_ff (fb : Framebuffer) :
    fb_bytes (memset_ff fb) = List.replicate WEACT_EPAPER_BUFFER_SIZE 0xFF := by
  apply List.eq_replicate_iff.mpr
  refine ⟨by simp [fb_bytes], ?_⟩
  intro bb hbb
  obtain ⟨i, hi, rfl⟩ := List.mem_map.mp hbb
  have hilt : i < WEACT_EPAPER_BUFFER_SIZE := List.mem_range.mp hi
  simp [memset_ff, hilt]

/-- C3: `weact_epaper_clear_screen` sets the entire framebuffer to all-white
(every byte 0xFF) and its transport traffic is exactly: an X/Y
address-counter reset to (0,0), a full-buffer 4000-byte write to the primary
black/white RAM plane, another X/Y reset to (0,0), a full-buffer 4000-byte
write to the secondary red RAM plane, the update-control write, then exactly
one master-activation command, and finally the blocking wait-until-idle.  In
particular the trace contains exactly two full-buffer RAM writes and exactly
one master activation, and ends with the wait. -/
theorem clear_screen_trace_spec (fb : Framebuffer) :
    (∀ i, i < WEACT_EPAPER_BUFFER_SIZE → (weact_epaper_clear_screen fb).1 i = 0xFF) ∧
    (weact_epaper_clear_screen fb).2 =
      xy_reset_events ++
      [SpiEv.cmd WEACT_EPAPER_CMD_WRITE_RAM_BW,
       SpiEv.data (List.replicate WEACT_EPAPER_BUFFER_SIZE 0xFF)] ++
      xy_reset_events ++
      [SpiEv.cmd WEACT_EPAPER_CMD_WRITE_RAM_RED,
       SpiEv.data (List.replicate WEACT_EPAPER_BUFFER_SIZE 0xFF)] ++
      [SpiEv.cmd WEACT_EPAPER_CMD_DISPLAY_UPDATE_CONTROL_2, SpiEv.data [0xF7],
       SpiEv.cmd WEACT_EPAPER_CMD_MASTER_ACTIVATION, SpiEv.wait_idle] ∧
    ((weact_epaper_clear_screen fb).2.filter is_full_ram_write).length = 2 ∧
    ((weact_epaper_clear_screen fb).2.filter is_master_activation).length = 1 ∧
    (weact_epaper_clear_screen fb).2.getLast? = some SpiEv.wait_idle := by
  have hrep := fb_bytes_memset_ff fb
  have htr : (weact_epaper_clear_screen fb).2 =
      xy_reset_events ++
      [SpiEv.cmd WEACT_EPAPER_CMD_WRITE_RAM_BW,
       SpiEv.data (List.replicate WEACT_EPAPER_BUFFER_SIZE 0xFF)] ++
      xy_reset_events ++
      [SpiEv.cmd WEACT_EPAPER_CMD_WRITE_RAM_RED,
       SpiEv.data (List.replicate WEACT_EPAPER_BUFFER_SIZE 0xFF)] ++
      [SpiEv.cmd WEACT_EPAPER_CMD_DISPLAY_UPDATE_CONTROL_2, SpiEv.data [0xF7],
       SpiEv.cmd WEACT_EPAPER_CMD_MASTER_ACTIVATION, SpiEv.wait_idle] := by
    simp [weact_epaper_clear_screen, hrep]
  refine ⟨?_, htr, ?_, ?_, ?_⟩
  · intro i hi
    simp [weact_epaper_clear_screen, memset_ff, hi]
  · rw [htr]
    have hA : is_full_ram_write
        (SpiEv.data (List.replicate WEACT_EPAPER_BUFFER_SIZE 0xFF)) = true := by
      simp [is_full_ram_write]
    have hB : is_full_ram_write (SpiEv.data [0x00]) = false := by
      simp [is_full_ram_write, WEACT_EPAPER_BUFFER_SIZE, WEACT_EPAPER_WIDTH_BYTES,
        WEACT_EPAPER_HEIGHT]
    have hC : is_full_ram_write (SpiEv.data [0x00, 0x00]) = false := by
      simp [is_full_ram_write, WEACT_EPAPER_BUFFER_SIZE, WEACT_EPAPER_WIDTH_BYTES,
        WEACT_EPAPER_HEIGHT]
    have hD : is_full_ram_write (SpiEv.data [0xF7]) = false := by
      simp [is_full_ram_write, WEACT_EPAPER_BUFFER_SIZE, WEACT_EPAPER_WIDTH_BYTES,
        WEACT_EPAPER_HEIGHT]
    have hE : ∀ bb, is_full_ram_write (SpiEv.cmd bb) = false := fun _ => rfl
    have hF : is_full_ram_write SpiEv.wait_idle = false := rfl
    simp [xy_reset_events, List.filter_append, List.filter_cons, hA, hB, hC, hD,
      hE, hF]
  · rw [htr]
    have mA : is_master_activation
        (SpiEv.cmd WEACT_EPAPER_CMD_MASTER_ACTIVATION) = true := by
      simp [is_master_activation]
    have mB : is_master_activation
        (SpiEv.cmd WEACT_EPAPER_CMD_SET_RAM_X_ADDRESS_COUNTER) = false := by
      simp [is_master_activation, WEACT_EPAPER_CMD_SET_RAM_X_ADDRESS_COUNTER,
        WEACT_EPAPER_CMD_MASTER_ACTIVATION]
    have mC : is_master_activation
        (SpiEv.cmd WEACT_EPAPER_CMD_SET_RAM_Y_ADDRESS_COUNTER) = false := by
      simp [is_master_activation, WEACT_EPAPER_CMD_SET_RAM_Y_ADDRESS_COUNTER,
        WEACT_EPAPER_CMD_MASTER_ACTIVATION]
    have mD : is_master_activation (SpiEv.cmd WEACT_EPAPER_CMD_WRITE_RAM_BW) = false := by
      simp [is_master_activation, WEACT_EPAPER_CMD_WRITE_RAM_BW,
        WEACT_EPAPER_CMD_MASTER_ACTIVATION]
    have mE : is_master_activation (SpiEv.cmd WEACT_EPAPER_CMD_WRITE_RAM_RED) = false := by
      simp [is_master_activation, WEACT_EPAPER_CMD_WRITE_RAM_RED,
        WEACT_EPAPER_CMD_MASTER_ACTIVATION]
    have mF : is_master_activation
        (SpiEv.cmd WEACT_EPAPER_CMD_DISPLAY_UPDATE_CONTROL_2) = false := by
      simp [is_master_activation, WEACT_EPAPER_CMD_DISPLAY_UPDATE_CONTROL_2,
        WEACT_EPAPER_CMD_MASTER_ACTIVATION]
    have mG : ∀ bs, is_master_activation (SpiEv.data bs) = false := fun _ => rfl
    have mH : is_master_activation SpiEv.wait_idle = false := rfl
    simp [xy_reset_events, List.filter_append, List.filter_cons, mA, mB, mC, mD,
      mE, mF, mG, mH]
  · rw [htr]
    rfl

theorem clear_screen_trace_spec_witness :
    (weact_epaper_clear_screen (fun _ => 0)).1 0 = 0xFF :=
  (clear_screen_trace_spec (fun _ => 0)).1 0 (by decide)

/-- C9: every invocation of the adapter flush callback issues the
flush-complete notification exactly once — the trace is the per-pixel draw
events followed by exactly one `flush_ready` and then the blocking
`display_frame` — and every pixel of the dirty rectangle has its draw event
in the prefix that precedes `flush_ready`. -/
theorem lvgl_flush_cb_events_spec (landscape : Bool) (cf : lv_color_format)
    (x1 y1 x2 y2 : Int) (px_map : Nat → Nat) :
    lvgl_flush_cb landscape cf x1 y1 x2 y2 px_map =
      flush_pixel_events landscape cf x1 y1 x2 y2 px_map ++
        [FlushEv.flush_ready, FlushEv.display_frame] ∧
    (∀ e ∈ flush_pixel_events landscape cf x1 y1 x2 y2 px_map,
       ∃ hx hy c, e = FlushEv.draw hx hy c) ∧
    (lvgl_flush_cb landscape cf x1 y1 x2 y2 px_map).count FlushEv.flush_ready = 1 ∧
    (lvgl_flush_cb landscape cf x1 y1 x2 y2 px_map).count FlushEv.display_frame = 1 ∧
    (∀ x y : Nat, x < (x2 - x1 + 1).toNat → y < (y2 - y1 + 1).toNat →
       flush_draw_ev landscape cf x1 y1 ((x2 - x1 + 1).toNat) px_map x y ∈
         flush_pixel_events landscape cf x1 y1 x2 y2 px_map) := by
  have hdraw : ∀ e ∈ flush_pixel_events landscape cf x1 y1 x2 y2 px_map,
      ∃ hx hy c, e = FlushEv.draw hx hy c := by
    intro e he
    simp only [flush_pixel_events, List.mem_flatMap, List.mem_map,
      List.mem_range] at he
    obtain ⟨y, hy, x, hx, rfl⟩ := he
    exact ⟨_, _, _, rfl⟩
  have hfr : FlushEv.flush_ready ∉ flush_pixel_events landscape cf x1 y1 x2 y2 px_map := by
    intro hmem
    obtain ⟨hx, hy, c, he⟩ := hdraw _ hmem
    exact FlushEv.noConfusion he
  have hdf : FlushEv.display_frame ∉ flush_pixel_events landscape cf x1 y1 x2 y2 px_map := by
    intro hmem
    obtain ⟨hx, hy, c, he⟩ := hdraw _ hmem
    exact FlushEv.noConfusion he
  refine ⟨rfl, hdraw, ?_, ?_, ?_⟩
  · simp only [lvgl_flush_cb]
    rw [List.count_append, List.count_eq_zero.mpr hfr]
    decide
  · simp only [lvgl_flush_cb]
    rw [List.count_append, List.count_eq_zero.mpr hdf]
    decide
  · intro x y hx hy
    simp only [flush_pixel_events, List.mem_flatMap, List.mem_map, List.mem_range]
    exact ⟨y, hy, x, hx, rfl⟩

theorem lvgl_flush_cb_events_spec_witness :
    (lvgl_flush_cb false lv_color_format.rgb888 0 0 0 0 (fun _ => 0)).count
      FlushEv.flush_ready = 1 :=
  (lvgl_flush_cb_events_spec false lv_color_format.rgb888 0 0 0 0 (fun _ => 0)).2.2.1

/-- C1 (code-bug evidence): the adapter computes the luma exactly as claimed,
but the polarity of the framebuffer write is inverted relative to the claim:
a flush of a single pixel with RGB = (0,0,0) (luma 0 < 128, which the claim
says must end up BLACK, bit 0) leaves the framebuffer bit at 1 = WHITE,
because `rgb_to_mono` returns 0 for dark pixels while
`weact_epaper_draw_pixel` interprets color 0 as WHITE; symmetrically a pixel
with RGB = (255,255,255) (luma 255 ≥ 128, claimed WHITE) is stored as
BLACK (bit 0). -/
theorem flush_polarity_inverted (fb : Framebuffer) :
    rgb_to_mono 0 0 0 = 0 ∧
    rgb_to_mono 255 255 255 = 1 ∧
    readPixelBit (flush_apply fb
      (lvgl_flush_cb false lv_color_format.rgb888 0 0 0 0 (fun _ => 0))) 0 0 = 1 ∧
    readPixelBit (flush_apply fb
      (lvgl_flush_cb false lv_color_format.rgb888 5 7 5 7 (fun _ => 255))) 5 7 = 0 := by
  have h1 : lvgl_flush_cb false lv_color_format.rgb888 0 0 0 0 (fun _ => 0) =
      [FlushEv.draw 0 0 0, FlushEv.flush_ready, FlushEv.display_frame] := by
    decide
  have h2 : lvgl_flush_cb false lv_color_format.rgb888 5 7 5 7 (fun _ => 255) =
      [FlushEv.draw 5 7 1, FlushEv.flush_ready, FlushEv.display_frame] := by
    decide
  refine ⟨by decide, by decide, ?_, ?_⟩
  · rw [h1]
    rw [show flush_apply fb
        [FlushEv.draw 0 0 0, FlushEv.flush_ready, FlushEv.display_frame] =
        weact_epaper_draw_pixel fb 0 0 0 from rfl]
    rw [readPixelBit_draw_pixel fb 0 0 0 (by decide) (by decide) (by decide) (by decide)
      0 0 (by decide) (by decide)]
    norm_num
  · rw [h2]
    rw [show flush_apply fb
        [FlushEv.draw 5 7 1, FlushEv.flush_ready, FlushEv.display_frame] =
        weact_epaper_draw_pixel fb 5 7 1 from rfl]
    rw [readPixelBit_draw_pixel fb 5 7 1 (by decide) (by decide) (by decide) (by decide)
      5 7 (by decide) (by decide)]
    norm_num
